import Mathlib

/-!
Shallow embedding of `pkg/kustoutils/utils.go` from the azure-schema-operator
repository, together with theorems about its target-resolution and
execution-configuration logic.

External effects (the kusto management query, the regex engine, the webhook
client, the schema file store, the delta-kusto wrapper and runner) are
modelled as explicit inputs; each Go function's control flow is translated
line by line.
-/

namespace Kustoutils

/-- One row delivered by the management-query iterator: either a real row
carrying a database name (the first column, as read by
`row.Values[0].String()`), or an inline per-row error (the `row == nil`
branch of the `DoOnRowOrError` callback). -/
inductive Row where
  | value (dbName : String)
  | inlineError (msg : String)
deriving DecidableEq, Repr

/-- The observable outcome of one `Client.Mgmt` call followed by iteration:
the rows delivered in order, and an optional terminal iteration error
(the non-nil `err` returned by `iter.DoOnRowOrError`). -/
structure MgmtResult where
  rows : List Row
  terminalError : Option String
deriving DecidableEq, Repr

/-- Error taxonomy for the modelled functions.  Go propagates plain `error`
values; the constructor records which source line produced the error. -/
inductive KErr where
  /-- `regexp.Compile` failed on the given pattern. -/
  | invalidFilter (pattern : String)
  /-- `Client.Mgmt` failed or the row iteration ended with a terminal error. -/
  | queryError (msg : String)
  /-- The webhook client `PerformQuery` failed. -/
  | lookupError (msg : String)
  /-- `StoreKQLSchemaToFile` failed. -/
  | storageError (msg : String)
  /-- No `kql` key in the config map, or the delta wrapper failed. -/
  | buildError (msg : String)
deriving DecidableEq, Repr

/-- The environment a `KustoCluster` interacts with:
`compile` models `regexp.Compile` (`none` = compile error, `some m` = the
compiled matcher's `MatchString`), `mgmt` models the
`.show databases | project DatabaseName` management call, and `webhook`
models `NewWebHookClient(nil).PerformQuery endpoint clusterName label`. -/
structure KustoEnv where
  compile : String → Option (String → Bool)
  mgmt : Except String MgmtResult
  webhook : String → String → String → Except String (List String)

/-- Mirrors `schemav1alpha1.TargetFilter`: the fields of the filter read by
`AquireTargets` (`DB`, `DBS`, `Webhook`, `Label`). -/
structure TargetFilter where
  DB : String := ""
  DBS : List String := []
  Webhook : String := ""
  Label : String := ""
deriving DecidableEq, Repr

/-- Mirrors the `DBs` field of `schemav1alpha1.ClusterTargets`, the only
field `AquireTargets` and `Execute` touch. -/
structure ClusterTargets where
  DBs : List String := []
deriving DecidableEq, Repr

/-- Counts the external calls a resolution makes: management queries
(`Client.Mgmt`) and webhook lookups (`PerformQuery`). -/
structure CallTrace where
  mgmtCalls : Nat
  webhookCalls : Nat
deriving DecidableEq, Repr

/-- The body of the `DoOnRowOrError` callback in `ListDatabases`
(utils.go lines 117-132): a real row whose name passes `nameFilter` is
appended; inline errors are logged and skipped. -/
def collectRows (nameFilter : String → Bool) (rows : List Row) : List String :=
  rows.filterMap fun r =>
    match r with
    | .value dbName => if nameFilter dbName then some dbName else none
    | .inlineError _ => none

/-- `KustoCluster.ListDatabases` (utils.go lines 98-138), paired with the
number of `Client.Mgmt` calls it issues.  Compile failure returns before the
management call; a terminal iteration error discards the collected `dbs` and
returns the error. -/
def ListDatabases (env : KustoEnv) (expression : String) :
    Except KErr (List String) × Nat :=
  match env.compile expression with
  | none => (.error (.invalidFilter expression), 0)
  | some nameFilter =>
    match env.mgmt with
    | .error e => (.error (.queryError e), 1)
    | .ok iter =>
      let dbs := collectRows nameFilter iter.rows
      match iter.terminalError with
      | some e => (.error (.queryError e), 1)
      | none => (.ok dbs, 1)

/-- The scheme separator `"https://"` used by `ClusterNameFromURI`. -/
def schemeSep : List Char := "https://".toList

/-- Drops everything up to and through the first occurrence of `sep`;
`none` when `sep` never occurs.  Models indexing `strings.Split(s, sep)[1]`
up to the later truncation: `none` is the case where Go's index expression
panics with index-out-of-range. -/
def dropThroughSep (sep : List Char) : List Char → Option (List Char)
  | [] => none
  | c :: rest =>
    if sep.isPrefixOf (c :: rest) then some ((c :: rest).drop sep.length)
    else dropThroughSep sep rest

/-- Takes characters up to (excluding) the next occurrence of `sep`:
together with `dropThroughSep` this yields exactly element `[1]` of Go's
`strings.Split`, the segment between the first and second occurrence. -/
def takeUntilSep (sep : List Char) : List Char → List Char
  | [] => []
  | c :: rest =>
    if sep.isPrefixOf (c :: rest) then []
    else c :: takeUntilSep sep rest

/-- `ClusterNameFromURI` (utils.go lines 186-188):
`strings.Split(strings.Split(uri, "https://")[1], ".")[0]`.
`strings.Split(uri, "https://")[1]` is the segment between the first and
second occurrence of `"https://"`; indexing `[1]` panics (modelled as
`none`) when the separator does not occur in `uri` at all.  Taking `[0]` of
the split on `"."` is the prefix up to the first dot. -/
def ClusterNameFromURI (uri : String) : Option String :=
  match dropThroughSep schemeSep uri.toList with
  | none => none
  | some tail =>
    some (String.mk ((takeUntilSep schemeSep tail).takeWhile fun c => c ≠ '.'))

/-- `KustoCluster.AquireTargets` (utils.go lines 70-95), paired with the
trace of external calls.  The outer `Option` models Go runtime panics:
`none` is the panic of `ClusterNameFromURI` inside the webhook branch when
the URI lacks `"https://"`. -/
def AquireTargets (env : KustoEnv) (uri : String) (filter : TargetFilter) :
    Option (Except KErr ClusterTargets × CallTrace) :=
  if filter.DB ≠ "" then
    let r := ListDatabases env filter.DB
    some (r.1.map fun dbs => { DBs := dbs }, ⟨r.2, 0⟩)
  else if filter.DBS.length > 0 then
    some (.ok { DBs := filter.DBS }, ⟨0, 0⟩)
  else if filter.Webhook ≠ "" then
    match ClusterNameFromURI uri with
    | none => none
    | some shortName =>
      match env.webhook filter.Webhook shortName filter.Label with
      | .error e => some (.error (.lookupError e), ⟨0, 1⟩)
      | .ok dbs => some (.ok { DBs := dbs }, ⟨0, 1⟩)
  else
    let r := ListDatabases env ""
    some (r.1.map fun dbs => { DBs := dbs }, ⟨r.2, 0⟩)

/-- Mirrors `schemav1alpha1.ExecutionConfiguration`: the two fields read
and written by `CreateExecConfiguration` and `Execute`.  The Go zero value
has both fields empty. -/
structure ExecutionConfiguration where
  KQLFile : String := ""
  JobFile : String := ""
deriving DecidableEq, Repr

/-- The external effects used when building an execution configuration:
`storeKQL` models `StoreKQLSchemaToFile` and `wrapperCreate` models
`wrapper.CreateExecConfiguration uri targets.DBs kqlFile failIfDataLoss`
(the delta-kusto configuration generator). -/
structure ExecEnv where
  storeKQL : String → Except String String
  wrapperCreate : String → List String → String → Bool → Except String String

/-- `KustoCluster.CreateExecConfiguration` (utils.go lines 149-168).  The
config map's `Data` field is modelled as an association list; the function
returns the Go pair `(config, err)`, where `err = none` means success. -/
def CreateExecConfiguration (env : ExecEnv) (uri : String)
    (targets : ClusterTargets) (cfgMapData : List (String × String))
    (failIfDataLoss : Bool) : ExecutionConfiguration × Option KErr :=
  match cfgMapData.lookup "kql" with
  | none => ({}, some (.buildError "no kql found in configmap"))
  | some kql =>
    match env.storeKQL kql with
    | .error e => ({}, some (.storageError e))
    | .ok kqlFile =>
      match env.wrapperCreate uri targets.DBs kqlFile failIfDataLoss with
      | .error e => ({}, some (.buildError e))
      | .ok deltaCfgFile =>
        ({ KQLFile := kqlFile, JobFile := deltaCfgFile }, none)

/-- `KustoCluster.Execute` (utils.go lines 141-146).  `runDeltaKusto`
models the external `RunDeltaKusto` apply tool: it receives the job file
and returns `none` on success or `some msg` on failure.  The Go function
returns a freshly created empty `ClusterTargets` named `done` together
with `RunDeltaKusto`'s error. -/
def Execute (runDeltaKusto : String → Option String)
    (targets : ClusterTargets) (config : ExecutionConfiguration) :
    ClusterTargets × Option String :=
  ({}, runDeltaKusto config.JobFile)

/-- Boolean test that `pat` occurs as a contiguous sublist of `s`. -/
def isSubOf (pat : List Char) : List Char → Bool
  | [] => pat.isEmpty
  | c :: rest => pat.isPrefixOf (c :: rest) || isSubOf pat rest

/-- Go's `regexp.MatchString` for a pattern containing no regex
metacharacters: an unanchored search, true iff the pattern occurs as a
substring anywhere in `s` ("reports whether the string s contains any match
of the regular expression"). -/
def goMatchLiteral (pat s : String) : Bool :=
  isSubOf pat.toList s.toList

/-! ### Concrete environments used by the witnesses -/

/-- A literal-pattern regex engine over a cluster that holds the two
databases `db` and `mydbx`; the webhook answers `["wdb"]`. -/
def testEnv : KustoEnv where
  compile := fun p => some (goMatchLiteral p)
  mgmt := .ok { rows := [Row.value "db", Row.value "mydbx"], terminalError := none }
  webhook := fun _ _ _ => .ok ["wdb"]

/-- An environment whose management query delivers two rows and then ends
with a terminal iteration error. -/
def termErrEnv : KustoEnv where
  compile := fun p => some (goMatchLiteral p)
  mgmt := .ok { rows := [Row.value "db1", Row.value "db2"],
                terminalError := some "stream reset" }
  webhook := fun _ _ _ => .ok []

/-- An environment whose regex engine rejects the pattern `"("` (an
invalid Go regular expression) and accepts every other pattern. -/
def badPatEnv : KustoEnv where
  compile := fun p => if p = "(" then none else some (goMatchLiteral p)
  mgmt := .ok { rows := [Row.value "db1"], terminalError := none }
  webhook := fun _ _ _ => .ok []

/-- An execution environment whose schema file store always fails. -/
def storeFailEnv : ExecEnv where
  storeKQL := fun _ => .error "disk full"
  wrapperCreate := fun _ _ f _ => .ok (f ++ ".yaml")

/-! ### Supporting lemmas -/

/-- `List.isPrefixOf` decides the existence of a completing suffix. -/
theorem isPrefixOf_eq_append (l₁ l₂ : List Char) :
    l₁.isPrefixOf l₂ = true ↔ ∃ t, l₂ = l₁ ++ t := by
  induction l₁ generalizing l₂ with
  | nil => simp [List.isPrefixOf]
  | cons a as ih =>
    cases l₂ with
    | nil => simp [List.isPrefixOf]
    | cons b bs =>
      simp only [List.isPrefixOf, Bool.and_eq_true, beq_iff_eq, ih,
        List.cons_append, List.cons.injEq]
      constructor
      · rintro ⟨rfl, t, rfl⟩; exact ⟨t, rfl, rfl⟩
      · rintro ⟨t, rfl, rfl⟩; exact ⟨rfl, t, rfl⟩

/-- `isSubOf` decides occurrence as a contiguous sublist. -/
theorem isSubOf_iff_exists (pat l : List Char) :
    isSubOf pat l = true ↔ ∃ pre suf, l = pre ++ pat ++ suf := by
  induction l with
  | nil =>
    simp only [isSubOf, List.isEmpty_iff]
    constructor
    · rintro rfl; exact ⟨[], [], rfl⟩
    · rintro ⟨pre, suf, h⟩
      rcases List.append_eq_nil.mp h.symm with ⟨h1, h2⟩
      exact (List.append_eq_nil.mp h1).2
  | cons c rest ih =>
    simp only [isSubOf, Bool.or_eq_true, isPrefixOf_eq_append, ih]
    constructor
    · rintro (⟨t, ht⟩ | ⟨pre, suf, rfl⟩)
      · exact ⟨[], t, by simpa using ht⟩
      · exact ⟨c :: pre, suf, rfl⟩
    · rintro ⟨pre, suf, h⟩
      cases pre with
      | nil => exact .inl ⟨suf, by simpa using h⟩
      | cons p ps =>
        simp only [List.cons_append, List.cons.injEq] at h
        exact .inr ⟨ps, suf, h.2⟩

/-- A successful separator search is exactly an occurrence of the
(non-empty) separator somewhere in the list. -/
theorem dropThroughSep_isSome (sep : List Char) (hs : sep ≠ []) (l : List Char) :
    (dropThroughSep sep l).isSome = isSubOf sep l := by
  induction l with
  | nil => simp [dropThroughSep, isSubOf, List.isEmpty_iff, hs]
  | cons c rest ih =>
    by_cases h : sep.isPrefixOf (c :: rest) <;>
      simp [dropThroughSep, isSubOf, h, ih]

/-- The empty pattern occurs in every string. -/
theorem isSubOf_nil (l : List Char) : isSubOf [] l = true := by
  cases l <;> simp [isSubOf, List.isPrefixOf]

/-- The callback of `ListDatabases` over clean rows computes a `filter`. -/
theorem collectRows_map_value (m : String → Bool) (names : List String) :
    collectRows m (names.map Row.value) = names.filter m := by
  induction names with
  | nil => rfl
  | cons n ns ih =>
    by_cases h : m n <;>
      simp [collectRows, List.filter_cons, h, ih, List.filterMap_cons] <;>
      simpa [collectRows] using ih

/-! ### Claim theorems -/

/-- C1: Target-resolution precedence in `AquireTargets` is first-match-wins:
a non-empty `filter.DB` delegates to `ListDatabases filter.DB` (so it wins
even when `filter.DBS` is also populated); else a non-empty `filter.DBS` is
returned as-is; else a set webhook endpoint calls the external provider with
the cluster short name and the label; else `ListDatabases ""`. -/
theorem aquireTargets_precedence (env : KustoEnv) (uri : String)
    (filter : TargetFilter) :
    (filter.DB ≠ "" →
      AquireTargets env uri filter =
        some ((ListDatabases env filter.DB).1.map fun dbs => { DBs := dbs },
          ⟨(ListDatabases env filter.DB).2, 0⟩)) ∧
    (filter.DB = "" → filter.DBS ≠ [] →
      AquireTargets env uri filter = some (.ok { DBs := filter.DBS }, ⟨0, 0⟩)) ∧
    (filter.DB = "" → filter.DBS = [] → filter.Webhook ≠ "" →
      ∀ shortName, ClusterNameFromURI uri = some shortName →
        AquireTargets env uri filter =
          some (match env.webhook filter.Webhook shortName filter.Label with
            | .error e => (.error (.lookupError e), ⟨0, 1⟩)
            | .ok dbs => (.ok { DBs := dbs }, ⟨0, 1⟩))) ∧
    (filter.DB = "" → filter.DBS = [] → filter.Webhook = "" →
      AquireTargets env uri filter =
        some ((ListDatabases env "").1.map fun dbs => { DBs := dbs },
          ⟨(ListDatabases env "").2, 0⟩)) := by
  refine ⟨?_, ?_, ?_, ?_⟩
  · intro h
    simp [AquireTargets, h]
  · intro h1 h2
    simp [AquireTargets, h1, h2]
  · intro h1 h2 h3 shortName hsn
    simp only [AquireTargets, h1, h2, h3, hsn, ne_eq, not_true_eq_false,
      if_false, List.length_nil, gt_iff_lt, lt_self_iff_false, if_true]
    cases env.webhook filter.Webhook shortName filter.Label <;> simp
  · intro h1 h2 h3
    simp [AquireTargets, h1, h2, h3]

/-- C1 witness: with both `DB` and `DBS` populated, the `DB` strategy
(management-query listing) wins. -/
theorem aquireTargets_precedence_witness :
    AquireTargets testEnv "https://c.kusto.windows.net"
        { DB := "db", DBS := ["x"] } =
      some ((ListDatabases testEnv "db").1.map fun dbs => { DBs := dbs },
        ⟨(ListDatabases testEnv "db").2, 0⟩) :=
  (aquireTargets_precedence testEnv "https://c.kusto.windows.net"
    { DB := "db", DBS := ["x"] }).1 (by decide)

/-- C2: over a clean row stream carrying the names `D`, `ListDatabases P`
returns exactly the names matched by the compiled pattern, a permutation of
the rows yields a permutation of the result (order independence of the
selected set), and a pattern whose compiled matcher accepts everything — in
particular the empty pattern `""` — returns all of `D`. -/
theorem listDatabases_exact_filter (env env' : KustoEnv) (P : String)
    (m : String → Bool) (names names' : List String)
    (hc : env.compile P = some m)
    (hm : env.mgmt = .ok { rows := names.map Row.value, terminalError := none })
    (hc' : env'.compile P = some m)
    (hm' : env'.mgmt = .ok { rows := names'.map Row.value, terminalError := none })
    (hperm : names.Perm names') :
    (ListDatabases env P).1 = .ok (names.filter m) ∧
    (ListDatabases env' P).1 = .ok (names'.filter m) ∧
    (names.filter m).Perm (names'.filter m) ∧
    (∀ mAll, env.compile "" = some mAll → (∀ s, mAll s = true) →
      (ListDatabases env "").1 = .ok names) := by
  refine ⟨?_, ?_, hperm.filter m, ?_⟩
  · simp [ListDatabases, hc, hm, collectRows_map_value]
  · simp [ListDatabases, hc', hm', collectRows_map_value]
  · intro mAll hcAll hAll
    simp [ListDatabases, hcAll, hm, collectRows_map_value,
      List.filter_eq_self.mpr fun a _ => hAll a]

/-- C2 witness: pattern `"db"` over rows `["db", "mydbx"]`, and the empty
pattern returning both rows. -/
theorem listDatabases_exact_filter_witness :
    (ListDatabases testEnv "db").1 = .ok ["db", "mydbx"] ∧
    (ListDatabases testEnv "").1 = .ok ["db", "mydbx"] := by
  have h := listDatabases_exact_filter testEnv testEnv "db"
    (goMatchLiteral "db") ["db", "mydbx"] ["db", "mydbx"]
    rfl rfl rfl rfl (List.Perm.refl _)
  exact ⟨h.1, h.2.2.2 (goMatchLiteral "") rfl fun s => isSubOf_nil s.toList⟩

/-- C3: a terminal iteration error makes `ListDatabases` return the error
and discard every row collected before it — the result is never `.ok`,
whatever the rows were. -/
theorem listDatabases_terminal_error (env : KustoEnv) (P : String)
    (m : String → Bool) (rows : List Row) (e : String)
    (hc : env.compile P = some m)
    (hm : env.mgmt = .ok { rows := rows, terminalError := some e }) :
    ListDatabases env P = (.error (.queryError e), 1) ∧
    ∀ l, (ListDatabases env P).1 ≠ .ok l := by
  refine ⟨?_, ?_⟩
  · simp [ListDatabases, hc, hm]
  · intro l
    simp [ListDatabases, hc, hm]

/-- C3 witness: two rows arrive, then the stream fails; both rows are
discarded. -/
theorem listDatabases_terminal_error_witness :
    ListDatabases termErrEnv "" = (.error (.queryError "stream reset"), 1) :=
  (listDatabases_terminal_error termErrEnv "" (goMatchLiteral "")
    [Row.value "db1", Row.value "db2"] "stream reset" rfl rfl).1

/-- C4: a pattern rejected by the regex compiler makes `ListDatabases` fail
immediately with the invalid-filter error and zero management-query calls
(the trace component is `0`). -/
theorem listDatabases_invalid_pattern (env : KustoEnv) (P : String)
    (hc : env.compile P = none) :
    ListDatabases env P = (.error (.invalidFilter P), 0) := by
  simp [ListDatabases, hc]

/-- C4 witness: the invalid pattern `"("` fails with zero management
calls. -/
theorem listDatabases_invalid_pattern_witness :
    ListDatabases badPatEnv "(" = (.error (.invalidFilter "("), 0) :=
  listDatabases_invalid_pattern badPatEnv "(" rfl

/-- C5: with `DB` empty and `DBS` non-empty, `AquireTargets` succeeds with
exactly the `DBS` contents and a call trace of zero management queries and
zero webhook lookups. -/
theorem aquireTargets_explicit_list (env : KustoEnv) (uri : String)
    (filter : TargetFilter) (h1 : filter.DB = "") (h2 : filter.DBS ≠ []) :
    AquireTargets env uri filter = some (.ok { DBs := filter.DBS }, ⟨0, 0⟩) := by
  simp [AquireTargets, h1, h2]

/-- C5 witness: `{explicitList: ["db1","db2"]}` resolves to exactly those
two names with zero external calls, against a live cluster that holds
different databases. -/
theorem aquireTargets_explicit_list_witness :
    AquireTargets testEnv "https://c.kusto.windows.net" { DBS := ["db1", "db2"] } =
      some (.ok { DBs := ["db1", "db2"] }, ⟨0, 0⟩) :=
  aquireTargets_explicit_list testEnv "https://c.kusto.windows.net"
    { DBS := ["db1", "db2"] } rfl (by decide)

/-- C6 counterexample: `"see-https://evil.example/x"` does not start with
the `https://` scheme, yet `ClusterNameFromURI` returns the name `evil`
rather than failing closed; and an input without `https://` anywhere makes
the Go expression `strings.Split(uri, "https://")[1]` panic with an
index-out-of-range (modelled as `none`), i.e. the function crashes rather
than failing closed. -/
theorem clusterNameFromURI_counterexample :
    schemeSep.isPrefixOf "see-https://evil.example/x".toList = false ∧
    ClusterNameFromURI "see-https://evil.example/x" = some "evil" ∧
    ClusterNameFromURI "fabrikam.kusto.windows.net" = none :=
  ⟨by decide, by rfl, by rfl⟩

/-- C6 amended: `ClusterNameFromURI` yields `fabrikam` for
`https://fabrikam.kusto.windows.net`, and in general extraction succeeds
exactly when `"https://"` occurs *somewhere* in the URI (taking the label
after its first occurrence); when it does not occur at all the code panics
on an out-of-range index (modelled as `none`) instead of failing closed. -/
theorem clusterNameFromURI_occurrence (uri : String) :
    ClusterNameFromURI "https://fabrikam.kusto.windows.net" = some "fabrikam" ∧
    ((ClusterNameFromURI uri).isSome = true ↔
      ∃ pre suf, uri.toList = pre ++ schemeSep ++ suf) := by
  refine ⟨by rfl, ?_⟩
  have h := dropThroughSep_isSome schemeSep (by decide) uri.toList
  rw [← isSubOf_iff_exists, ← h]
  unfold ClusterNameFromURI
  cases dropThroughSep schemeSep uri.toList <;> simp

/-- C7 counterexample: the metacharacter-free `singleDB` value `"db"`
against databases `{"db", "mydbx"}` resolves to *both* names — `"mydbx"`
merely contains `"db"` as a substring and is not equal to it, so the
`singleDB` strategy is not an exact-match filter. -/
theorem singleDB_not_exact_counterexample :
    AquireTargets testEnv "https://c.kusto.windows.net" { DB := "db" } =
      some (.ok { DBs := ["db", "mydbx"] }, ⟨1, 0⟩) ∧
    ("mydbx" : String) ≠ "db" :=
  ⟨by rfl, by decide⟩

/-- C7 amended: a metacharacter-free `singleDB` value `S` behaves as an
*unanchored substring* filter (Go's `MatchString` semantics): the resolved
set is exactly the names in `D` that contain `S` as a substring. -/
theorem aquireTargets_singleDB_substring (env : KustoEnv) (uri S : String)
    (names : List String) (hS : S ≠ "")
    (hc : env.compile S = some (goMatchLiteral S))
    (hm : env.mgmt = .ok { rows := names.map Row.value, terminalError := none }) :
    AquireTargets env uri { DB := S } =
      some (.ok { DBs := names.filter (goMatchLiteral S) }, ⟨1, 0⟩) ∧
    ∀ d, goMatchLiteral S d = true ↔
      ∃ pre suf, d.toList = pre ++ S.toList ++ suf := by
  refine ⟨?_, fun d => isSubOf_iff_exists S.toList d.toList⟩
  simp [AquireTargets, hS, ListDatabases, hc, hm, collectRows_map_value,
    Except.map]

/-- C7 witness: `singleDB = "db"` over `{"db", "mydbx"}` keeps every name
containing `"db"`. -/
theorem aquireTargets_singleDB_substring_witness :
    AquireTargets testEnv "https://c.kusto.windows.net" { DB := "db" } =
      some (.ok { DBs := ["db", "mydbx"].filter (goMatchLiteral "db") }, ⟨1, 0⟩) :=
  (aquireTargets_singleDB_substring testEnv "https://c.kusto.windows.net" "db"
    ["db", "mydbx"] (by decide) rfl rfl).1

/-- C8 counterexample: a caller-supplied explicit list with a duplicate
resolves to a target list that still contains the duplicate — the resolved
`DBs` list is not deduplicated. -/
theorem dedup_counterexample :
    AquireTargets testEnv "https://c.kusto.windows.net" { DBS := ["db1", "db1"] } =
      some (.ok { DBs := ["db1", "db1"] }, ⟨0, 0⟩) ∧
    ¬ (["db1", "db1"] : List String).Nodup :=
  ⟨by rfl, by decide⟩

/-- C8 amended: `AquireTargets` performs no deduplication — the explicit
list is returned verbatim, so the resolved list has no duplicates exactly
when the caller's list had none. -/
theorem aquireTargets_preserves_duplicates (env : KustoEnv) (uri : String)
    (l : List String) (h : l ≠ []) :
    ∃ t : ClusterTargets,
      AquireTargets env uri { DBS := l } = some (.ok t, ⟨0, 0⟩) ∧
      t.DBs = l ∧ (t.DBs.Nodup ↔ l.Nodup) :=
  ⟨{ DBs := l }, by simp [AquireTargets, h], rfl, Iff.rfl⟩

/-- C8 witness: the duplicate-bearing list `["db1", "db1"]` comes back
verbatim, duplicates included. -/
theorem aquireTargets_preserves_duplicates_witness :
    ∃ t : ClusterTargets,
      AquireTargets testEnv "https://c.kusto.windows.net" { DBS := ["db1", "db1"] } =
        some (.ok t, ⟨0, 0⟩) ∧
      t.DBs = ["db1", "db1"] ∧
      (t.DBs.Nodup ↔ (["db1", "db1"] : List String).Nodup) :=
  aquireTargets_preserves_duplicates testEnv "https://c.kusto.windows.net"
    ["db1", "db1"] (by decide)

/-- C9: `CreateExecConfiguration` is atomic on error — a missing `kql`
entry, a schema-file persistence failure, or an external generator failure
each return an error together with the zero-value configuration, and
whenever an error is returned the configuration has neither `KQLFile` nor
`JobFile` populated. -/
theorem createExecConfiguration_atomic (env : ExecEnv) (uri : String)
    (targets : ClusterTargets) (cfgMapData : List (String × String))
    (failIfDataLoss : Bool) :
    (cfgMapData.lookup "kql" = none →
      CreateExecConfiguration env uri targets cfgMapData failIfDataLoss =
        ({}, some (.buildError "no kql found in configmap"))) ∧
    (∀ kql e, cfgMapData.lookup "kql" = some kql →
      env.storeKQL kql = .error e →
      CreateExecConfiguration env uri targets cfgMapData failIfDataLoss =
        ({}, some (.storageError e))) ∧
    (∀ kql kqlFile e, cfgMapData.lookup "kql" = some kql →
      env.storeKQL kql = .ok kqlFile →
      env.wrapperCreate uri targets.DBs kqlFile failIfDataLoss = .error e →
      CreateExecConfiguration env uri targets cfgMapData failIfDataLoss =
        ({}, some (.buildError e))) ∧
    ((CreateExecConfiguration env uri targets cfgMapData failIfDataLoss).2 ≠ none →
      (CreateExecConfiguration env uri targets cfgMapData failIfDataLoss).1 =
        { KQLFile := "", JobFile := "" }) := by
  refine ⟨?_, ?_, ?_, ?_⟩
  · intro h
    simp [CreateExecConfiguration, h]
  · intro kql e h1 h2
    simp [CreateExecConfiguration, h1, h2]
  · intro kql kqlFile e h1 h2 h3
    simp [CreateExecConfiguration, h1, h2, h3]
  · intro hne
    unfold CreateExecConfiguration at hne ⊢
    rcases hk : cfgMapData.lookup "kql" with _ | kql
    · simp [hk]
    · rcases hs : env.storeKQL kql with e | kqlFile
      · simp [hk, hs]
      · rcases hw : env.wrapperCreate uri targets.DBs kqlFile failIfDataLoss with e | f
        · simp [hk, hs, hw]
        · simp [hk, hs, hw] at hne

/-- C9 witness: a failing schema-file store yields the storage error and
the untouched zero-value configuration. -/
theorem createExecConfiguration_atomic_witness :
    CreateExecConfiguration storeFailEnv "https://c.kusto.windows.net"
        { DBs := ["db1"] } [("kql", ".create table T")] true =
      ({}, some (.storageError "disk full")) :=
  (createExecConfiguration_atomic storeFailEnv "https://c.kusto.windows.net"
    { DBs := ["db1"] } [("kql", ".create table T")] true).2.1
    ".create table T" "disk full" rfl rfl

/-- C10: `Execute` always returns the empty `ClusterTargets` paired with
the outcome of running the external apply tool on `config.JobFile`; the
targets argument and the configuration's `KQLFile` are ignored entirely. -/
theorem execute_only_jobfile (rd : String → Option String)
    (t1 t2 : ClusterTargets) (c1 c2 : ExecutionConfiguration)
    (h : c1.JobFile = c2.JobFile) :
    Execute rd t1 c1 = ({ DBs := [] }, rd c1.JobFile) ∧
    Execute rd t1 c1 = Execute rd t2 c2 := by
  refine ⟨rfl, ?_⟩
  simp [Execute, h]

/-- C10 witness: different targets and different `KQLFile`s, same
`JobFile` — identical outcomes, and the recorded result set is empty. -/
theorem execute_only_jobfile_witness :
    Execute (fun _ => none) { DBs := ["a"] } { KQLFile := "k", JobFile := "j" } =
      ({ DBs := [] }, none) ∧
    Execute (fun _ => none) { DBs := ["a"] } { KQLFile := "k", JobFile := "j" } =
      Execute (fun _ => none) { DBs := ["b"] } { KQLFile := "other", JobFile := "j" } :=
  execute_only_jobfile (fun _ => none) { DBs := ["a"] } { DBs := ["b"] }
    { KQLFile := "k", JobFile := "j" } { KQLFile := "other", JobFile := "j" } rfl

end Kustoutils
